import Mathlib

/-
Verification of the quilt content-addressed package store
(src/quilt/tools/store.py) against its natural-language specification.

The Python module is shallowly embedded: each relevant function of
store.py is translated into an executable Lean definition. File-system
state is explicit (a map from path strings to byte lists), Python
exceptions become explicit error values, and the mutation performed by
a method becomes the state returned by the corresponding Lean function.
Paths in the directory-resolver model are lists of path components,
stored deepest component first, so that os.path.split is the head/tail
decomposition of the list.

The node classes, the TargetType enumeration and the digest function
live in core.py, const.py and hashing.py, which are not part of the
sources under verification; they are modelled from the specification
(section 3 of the spec for the node shapes, section 4.5 for the target
kinds, section 4.1 for the digest engine, whose only property used here
is determinism: the digest is a function of the bytes).
-/

namespace Quilt

/-- PACKAGE_DIR_NAME from const.py; the value appears in the
find_package_dirs docstring of store.py (the marker directory is named
quilt_packages). -/
def PACKAGE_DIR_NAME : String := "quilt_packages"

mutual

/-- Modelled from the spec: the node classes of core.py are not under
src/. Section 3 of the spec: a Group carries a mapping from name to
child node; Table and File carry an ordered list of content digests
plus metadata (original extension, source path, target-format tag).
Only GroupNode has a children attribute. -/
inductive Node where
  | group (children : Children)
  | table (hashes : List String) (q_ext q_path q_target : String)
  | file (hashes : List String) (q_ext q_path q_target : String)

/-- Children of a Group node: an association list from names to nodes,
modelling the Python dict (insertion order kept, names unique). -/
inductive Children where
  | nil
  | cons (name : String) (child : Node) (rest : Children)

end

/-- Lookup in a children dict, as Python dict.get. -/
def Children.lookup : Children → String → Option Node
  | .nil, _ => none
  | .cons n c rest, k => if n == k then some c else rest.lookup k

/-- Assignment into a children dict, as Python dict item assignment:
replaces the binding when the key is present, appends it otherwise. -/
def Children.set : Children → String → Node → Children
  | .nil, k, v => .cons k v .nil
  | .cons n c rest, k, v =>
    if n == k then .cons n v rest else .cons n c (rest.set k v)

/-! ## Directory Resolver: PackageStore.find_package_dirs -/

/-- Given a directory (components stored deepest first), the path of its
marker subdirectory, os.path.join(path, PACKAGE_DIR_NAME). -/
def markerChild (p : List String) : List String := PACKAGE_DIR_NAME :: p

/-- Last path component of a directory, as returned by os.path.split;
the filesystem root has the empty name (os.path.split of the root
returns an empty last component). -/
def dirName : List String → String
  | [] => ""
  | n :: _ => n

/-- Embedding of PackageStore.find_package_dirs (store.py lines 61-82).
The loop repeatedly splits the current path into (parent, name); when
the name is not PACKAGE_DIR_NAME and the marker subdirectory exists, the
marker subdirectory is yielded; the loop stops when the parent equals
the path, i.e. at the filesystem root, which is itself still examined
before the break. isDir is the os.path.isdir oracle. -/
def find_package_dirs (isDir : List String → Bool) : List String → List (List String)
  | [] =>
    if dirName [] != PACKAGE_DIR_NAME && isDir (markerChild []) then [markerChild []] else []
  | name :: parent =>
    (if name != PACKAGE_DIR_NAME && isDir (markerChild (name :: parent)) then
      [markerChild (name :: parent)]
    else []) ++ find_package_dirs isDir parent

/-- The ancestors of a directory, the directory itself first, the
filesystem root last: with deepest-first component lists these are
exactly the suffixes of the list. -/
def ancestors (p : List String) : List (List String) := p.tails

/-! ## Name validation: VALID_NAME_RE -/

/-- ASCII fragment of the word-character class of the regex
VALID_NAME_RE (store.py line 36): letters, digits or underscore.
Non-ASCII word characters accepted by Python's Unicode-aware regex
engine are outside the scope of this embedding; theorems that need the
regex are therefore stated over ASCII strings where it matters. -/
def isWordChar (c : Char) : Bool := c.isAlpha || c.isDigit || c == '_'

/-- Matching of the regex body [a-zA-Z]\w* against a whole character
list: first character an ASCII letter, remaining characters word
characters. This is also the predicate the spec states in words
(first character a letter, remaining characters
letters/digits/underscore). -/
def nameBodyMatch : List Char → Bool
  | [] => false
  | c :: rest => c.isAlpha && rest.all isWordChar

/-- The pattern as the specification words it: first character a
letter, remaining characters letters/digits/underscore. -/
def specValidName (s : String) : Bool := nameBodyMatch s.data

/-- Embedding of re.match on VALID_NAME_RE (store.py line 36,
re.compile of the anchored pattern). In Python's re, the dollar anchor
matches at the end of the string and also just before one newline at
the end of the string, so a name carrying one trailing newline is
accepted as well. -/
def validNameMatch (s : String) : Bool :=
  nameBodyMatch s.data ||
    (s.data.getLast? == some '\n' && nameBodyMatch s.data.dropLast)

/-! ## Errors -/

/-- StoreException payloads raised by store.py, carried structurally so
theorems can state exactly which error is raised. -/
inductive StoreErr where
  | invalidUserName (u : String)
  | invalidPackageName (p : String)
  | packageNotFound
  | keyNotFound (pathSoFar : List String) (user pkg : String)
  | unrecognizedTarget (t : String)
  | downloadFailed (h : String) (code : Nat)
  | mismatchedHash (expected actual : String)
  | missingDependency (modName cls : String)
deriving Repr, DecidableEq

/-- Python exceptions observable from the embedded code: a
StoreException, or a built-in exception escaping uncaught (TypeError
from open(None), AttributeError from a .children access on a non-Group
node, KeyError from urls[hash], AssertionError from a failed assert). -/
inductive PyExc where
  | store (e : StoreErr)
  | typeError
  | attributeError
  | keyError (k : String)
  | assertionError
deriving Repr, DecidableEq

/-- Name-validation prologue shared by _find_path_read (store.py lines
306-311) and _find_path_write (lines 328-331): the user name and then
the package name are matched against VALID_NAME_RE, and the first
failure raises a StoreException. Returns the raised error, none when
both names pass. -/
def find_path_name_check (user pkg : String) : Option StoreErr :=
  if !validNameMatch user then some (.invalidUserName user)
  else if !validNameMatch pkg then some (.invalidPackageName pkg)
  else none

/-! ## Python string helpers -/

/-- Python str.split with a one-character separator, on character
lists: split("") is [""], every separator occurrence starts a new
(possibly empty) segment. -/
def splitOnChar (sep : Char) : List Char → List (List Char)
  | [] => [[]]
  | c :: rest =>
    let r := splitOnChar sep rest
    if c == sep then [] :: r
    else
      match r with
      | [] => [[c]]
      | g :: gs => (c :: g) :: gs

/-- Python str.split with a one-character separator. -/
def pySplit (s : String) (sep : Char) : List String :=
  (splitOnChar sep s.data).map (fun g => String.mk g)

/-- Python str.replace with one-character pattern and replacement. -/
def pyReplaceChar (s : String) (old new : Char) : String :=
  String.mk (s.data.map (fun c => if c == old then new else c))

/-! ## TargetType and _add_to_contents -/

/-- Modelled from the spec: const.py (TargetType) is not under src/.
The enumerated target kinds are Table (value pandas) and File (value
file); constructing the enum from any other value raises ValueError,
which _add_to_contents turns into a StoreException. -/
inductive TargetType where
  | PANDAS
  | FILE
deriving Repr, DecidableEq

/-- TargetType(target): Python Enum lookup by value. -/
def targetTypeOfString (t : String) : Option TargetType :=
  if t == "pandas" then some .PANDAS
  else if t == "file" then some .FILE
  else none

/-- Leaf node built by _add_to_contents (store.py lines 366-373):
TableNode for the pandas target, FileNode for the file target, with
hashes [objhash] and metadata q_ext, q_path, q_target. -/
def makeLeaf (tt : TargetType) (objhash ext path target : String) : Node :=
  match tt with
  | .PANDAS => .table [objhash] ext path target
  | .FILE => .file [objhash] ext path target

/-- Whether the setdefault loop of _add_to_contents (store.py lines
351-353) runs to completion: iteration i reads ptr.children where ptr
is the node reached so far, so every node reached before the last loop
step must be a Group; a Table or File node there raises
AttributeError (the node classes have no children attribute). The loop
is not entered for an empty path, so the start node is then never
inspected. -/
def loopOk : Node → List String → Bool
  | _, [] => true
  | .group ch, n :: rest => loopOk ((ch.lookup n).getD (.group .nil)) rest
  | _, _ :: _ => false

/-- The ptr value after the setdefault loop of _add_to_contents,
meaningful when loopOk holds: each step moves to the existing child or
to a fresh empty Group. -/
def finalPtr : Node → List String → Node
  | t, [] => t
  | .group ch, n :: rest => finalPtr ((ch.lookup n).getD (.group .nil)) rest
  | t, _ :: _ => t

/-- Pure rebuild of the tree after the setdefault chain and the final
leaf assignment of _add_to_contents: walks the group path, inserting
fresh empty groups where a name is absent, and assigns the leaf in the
final group. Meaningful when loopOk holds and the final ptr is a
Group. -/
def insertAt : Node → List String → String → Node → Node
  | .group ch, [], leaf, v => .group (ch.set leaf v)
  | .group ch, n :: rest, leaf, v =>
    .group (ch.set n (insertAt ((ch.lookup n).getD (.group .nil)) rest leaf v))
  | t, _, _, _ => t

/-- Embedding of PackageStore._add_to_contents (store.py lines
343-375) given the in-memory contents tree: the dotted fullname is
split, the last segment is the leaf name, the setdefault loop walks the
group path (raising AttributeError on a non-Group node reached before
the last step), then the target kind is checked (an unrecognized value
raises the StoreException), then the leaf is assigned (raising
AttributeError when the final ptr is not a Group). The returned tree is
what save_contents then persists; an error means save_contents is never
reached. -/
def add_to_contents (contents : Node) (fullname objhash ext path target : String) :
    Except PyExc Node :=
  let ipath := pySplit fullname '.'
  let gpath := ipath.dropLast
  let leaf := ipath.getLastD ""
  if !(loopOk contents gpath) then .error .attributeError
  else
    match targetTypeOfString target with
    | none => .error (.store (.unrecognizedTarget target))
    | some tt =>
      match finalPtr contents gpath with
      | .group _ => .ok (insertAt contents gpath leaf (makeLeaf tt objhash ext path target))
      | _ => .error .attributeError

/-- Store-level effect of one _add_to_contents call on the persisted
manifest: get_contents reads the manifest file (an absent file yields
an empty Group), and save_contents overwrites the file only when
_add_to_contents finishes without an exception, so the old manifest
persists on any error. -/
def storeAddNode (disk : Option Node) (fullname objhash ext path target : String) :
    Option Node × Option PyExc :=
  let contents := disk.getD (.group .nil)
  match add_to_contents contents fullname objhash ext path target with
  | .ok m2 => (some m2, none)
  | .error e => (disk, some e)

/-! ## get_contents -/

/-- Embedding of PackageStore.get_contents (store.py lines 132-142).
The store handle's _path is an Option: none when neither the resolver
nor a write-path allocation set it. fsManifest maps a manifest path to
its decoded tree when the file exists. open(self._path) with a None
path raises TypeError, which the except IOError clause does not catch;
with a path naming an absent file it raises IOError, caught and turned
into an empty GroupNode; otherwise the decoded contents are returned. -/
def get_contents (pathOpt : Option String) (fsManifest : String → Option Node) :
    Except PyExc Node :=
  match pathOpt with
  | none => .error .typeError
  | some p =>
    match fsManifest p with
    | none => .ok (.group .nil)
    | some contents => .ok contents

/-! ## Path lookup: PackageStore.get -/

/-- Python str.lstrip with the slash character: drop leading slashes. -/
def lstripSlash (s : String) : String :=
  String.mk (s.data.dropWhile (fun c => c == '/'))

/-- Key splitting of PackageStore.get (store.py lines 166-167):
key = path.lstrip(slash); ipath = key.split(slash) if key else []. -/
def splitKey (path : String) : List String :=
  let key := lstripSlash path
  if key == "" then [] else pySplit key '/'

/-- Walk of the contents tree in PackageStore.get (store.py lines
169-177): each segment is appended to path_so_far, then looked up in
ptr.children; a non-Group ptr raises AttributeError (no children
attribute), a missing child raises the StoreException carrying the
joined path_so_far (which already includes the missing segment) and the
owner and package names. -/
def walkGet (user pkg : String) : Node → List String → List String → Except PyExc Node
  | ptr, [], _ => .ok ptr
  | ptr, n :: rest, sofar =>
    match ptr with
    | .group ch =>
      match ch.lookup n with
      | none => .error (.store (.keyNotFound (sofar ++ [n]) user pkg))
      | some nxt => walkGet user pkg nxt rest (sofar ++ [n])
    | _ => .error .attributeError

/-- Result of PackageStore.get: the Group subtree itself, a dataframe
materialized by the active backend from the table's hashes, or the
object path backing a File node (PackageStore.file, store.py lines
98-106, which asserts the hash list is a singleton). -/
inductive GetResult where
  | group (n : Node)
  | dataframe (hashes : List String)
  | objfile (filehash : String)

/-- Embedding of PackageStore.get (store.py lines 159-187): a handle
without a located manifest raises the package-not-found StoreException;
otherwise the path is stripped of leading slashes, split on slashes (an
empty key giving the empty segment list), and walked from the decoded
contents root. -/
def get (pkgExists : Bool) (user pkg : String) (contents : Node) (path : String) :
    Except PyExc GetResult :=
  if !pkgExists then .error (.store .packageNotFound)
  else
    match walkGet user pkg contents (splitKey path) [] with
    | .error e => .error e
    | .ok node =>
      match node with
      | .group ch => .ok (.group (.group ch))
      | .table hs _ _ _ => .ok (.dataframe hs)
      | .file hs _ _ _ =>
        match hs with
        | [h] => .ok (.objfile h)
        | _ => .error .assertionError

/-! ## File-system model and object paths -/

/-- File-system state: a map from path strings to file contents
(byte lists). -/
def Fs : Type := String → Option (List Nat)

/-- The empty file system. -/
def fsEmpty : Fs := fun _ => none

/-- Writing a file, as open(path, w) plus write: creates or
overwrites. -/
def fsWrite (fs : Fs) (p : String) (b : List Nat) : Fs :=
  fun q => if q == p then some b else fs q

/-- os.remove. -/
def fsRemove (fs : Fs) (p : String) : Fs :=
  fun q => if q == p then none else fs q

/-- PackageStore._object_path (store.py lines 262-266):
os.path.join(pkg_dir, OBJ_DIR, objhash) with OBJ_DIR = objs. -/
def objPath (pkgDir objhash : String) : String :=
  pkgDir ++ "/objs/" ++ objhash

/-- PackageStore._temporary_object_path (store.py lines 268-272):
os.path.join(pkg_dir, TMP_OBJ_DIR, name) with TMP_OBJ_DIR = objs/tmp. -/
def tmpObjPath (pkgDir name : String) : String :=
  pkgDir ++ "/objs/tmp/" ++ name

/-! ## Install protocol -/

/-- Outcome of requests.get on one object URL: a non-ok response with
its status code, or the response body after the transparent
content-encoding decompression performed by requests. -/
inductive FetchResult where
  | httpError (code : Nat)
  | body (content : List Nat)

/-- Embedding of install_table (store.py lines 220-248) over the hash
list of one node. digestFn is the digest engine (hashing.py digest_file,
modelled from the spec as a deterministic function of the bytes). For
each hash: the URL is looked up (KeyError when absent), fetched (a
non-ok response raises the StoreException), the body is written to the
object path, the digest of the written file is recomputed, and on a
mismatch the partial file is removed and the StoreException aborts the
remaining work. Returns the final file system and the exception, if
any. -/
def install_table (digestFn : List Nat → String) (urls : String → Option String)
    (fetch : String → FetchResult) (pkgDir : String) :
    List String → Fs → Fs × Option PyExc
  | [], fs => (fs, none)
  | h :: rest, fs =>
    match urls h with
    | none => (fs, some (.keyError h))
    | some url =>
      match fetch url with
      | .httpError code => (fs, some (.store (.downloadFailed h code)))
      | .body content =>
        let p := objPath pkgDir h
        let fs1 := fsWrite fs p content
        let fileHash := digestFn content
        if fileHash != h then (fsRemove fs1 p, some (.store (.mismatchedHash h fileHash)))
        else install_table digestFn urls fetch pkgDir rest fs1

/-- Hash list of a Table or File node, as read by install_table. -/
def nodeHashes : Node → List String
  | .group _ => []
  | .table hs _ _ _ => hs
  | .file hs _ _ _ => hs

mutual

/-- Embedding of install_tables (store.py lines 250-258): contents must
be a Group (a non-Group has no children attribute); each child Group is
recursed into, each leaf child goes through install_table; the first
exception aborts the remaining traversal. -/
def install_tables (digestFn : List Nat → String) (urls : String → Option String)
    (fetch : String → FetchResult) (pkgDir : String) (contents : Node) (fs : Fs) :
    Fs × Option PyExc :=
  match contents with
  | .group ch => installChildren digestFn urls fetch pkgDir ch fs
  | _ => (fs, some .attributeError)

/-- The loop over contents.children.values() of install_tables. -/
def installChildren (digestFn : List Nat → String) (urls : String → Option String)
    (fetch : String → FetchResult) (pkgDir : String) (ch : Children) (fs : Fs) :
    Fs × Option PyExc :=
  match ch with
  | .nil => (fs, none)
  | .cons _ child rest =>
    let r :=
      match child with
      | .group ch2 => installChildren digestFn urls fetch pkgDir ch2 fs
      | n => install_table digestFn urls fetch pkgDir (nodeHashes n) fs
    match r with
    | (fs1, none) => installChildren digestFn urls fetch pkgDir rest fs1
    | (fs1, some e) => (fs1, some e)

end

/-! ## save_file and save_df -/

/-- File-system operations performed by a save, recorded so that
theorems can state when a copy or a move onto the object path
happened. -/
inductive FsOp where
  | copyOp (src dst : String)
  | renameOp (src dst : String)
deriving Repr, DecidableEq

/-- Embedding of PackageStore.save_file (store.py lines 120-130):
_find_path_write validates the user and package names; the digest of
the source file is computed; the slash path is turned into a dotted
fullname and added to the contents (which persists the manifest); then
the source is copied to the object path only if no file exists there.
Inputs: the persisted manifest (none when no manifest file exists yet),
the file system, the source file path and its bytes. Returns the new
manifest, the new file system and the trace of object-file operations. -/
def save_file (digestFn : List Nat → String) (user pkg : String) (manifest : Option Node)
    (fs : Fs) (srcfile : String) (srcBytes : List Nat) (name path target pkgDir : String) :
    Except PyExc (Option Node × Fs × List FsOp) :=
  match find_path_name_check user pkg with
  | some e => .error (.store e)
  | none =>
    let filehash := digestFn srcBytes
    let fullname := pyReplaceChar (lstripSlash name) '/' '.'
    match add_to_contents (manifest.getD (.group .nil)) fullname filehash "" path target with
    | .error e => .error e
    | .ok m2 =>
      let objp := objPath pkgDir filehash
      match fs objp with
      | some _ => .ok (some m2, fs, [])
      | none => .ok (some m2, fsWrite fs objp srcBytes, [.copyOp srcfile objp])

/-- Embedding of HDF5PackageStore.save_df (store.py lines 409-420);
FastParquetPackageStore.save_df and ArrowPackageStore.save_df have the
same shape. _find_path_write validates the names; the dataframe is
serialized by the backend into the temporary object path (dfBytes are
the bytes the backend produces); the digest of the staged file is
computed and added to the contents; then os.rename moves the staged
file onto the object path unconditionally, overwriting any object
already there. -/
def hdf5_save_df (digestFn : List Nat → String) (user pkg : String) (manifest : Option Node)
    (fs : Fs) (dfBytes : List Nat) (name ext path target pkgDir : String) :
    Except PyExc (Option Node × Fs × List FsOp) :=
  match find_path_name_check user pkg with
  | some e => .error (.store e)
  | none =>
    let buildfile := pyReplaceChar (lstripSlash name) '/' '.'
    let storepath := tmpObjPath pkgDir buildfile
    let fs1 := fsWrite fs storepath dfBytes
    let filehash := digestFn dfBytes
    match add_to_contents (manifest.getD (.group .nil)) buildfile filehash ext path target with
    | .error e => .error e
    | .ok m2 =>
      let objp := objPath pkgDir filehash
      let fs2 := fsWrite (fsRemove fs1 storepath) objp dfBytes
      .ok (some m2, fs2, [.renameOp storepath objp])

/-! ## Backend constructors and their dependency checks -/

/-- Availability of the runtime modules the backends rely on: the
module-level optional imports of store.py (fastparquet, pyarrow,
pyspark SparkSession) plus the HDF5 runtime that pandas HDFStore loads
on demand. -/
structure RuntimeDeps where
  fastparquet : Bool
  pyarrow : Bool
  sparkSession : Bool
  hdf5Runtime : Bool
deriving Repr, DecidableEq

/-- FastParquetPackageStore.__init__ (store.py lines 427-430): raises
the missing-dependency StoreException when the fastparquet module is
unavailable, before running the base initializer. Only the
dependency-checking aspect of construction is modelled. -/
def fastParquetStoreInit (d : RuntimeDeps) : Except StoreErr Unit :=
  if d.fastparquet then .ok ()
  else .error (.missingDependency "fastparquet" "FastParquetPackageStore")

/-- ArrowPackageStore.__init__ (store.py lines 483-486): raises when
pyarrow is unavailable. -/
def arrowStoreInit (d : RuntimeDeps) : Except StoreErr Unit :=
  if d.pyarrow then .ok ()
  else .error (.missingDependency "pyarrow" "ArrowPackageStore")

/-- SparkPackageStore.__init__ (store.py lines 459-464): runs the
FastParquetPackageStore initializer first (it is the superclass), then
raises when SparkSession is unavailable. -/
def sparkStoreInit (d : RuntimeDeps) : Except StoreErr Unit :=
  match fastParquetStoreInit d with
  | .error e => .error e
  | .ok _ =>
    if d.sparkSession then .ok ()
    else .error (.missingDependency "SparkSession" "SparkPackageStore")

/-- HDF5PackageStore.__init__ (store.py lines 396-398): performs no
dependency check at all; it only runs the base initializer and clears a
cached field. -/
def hdf5StoreInit (_d : RuntimeDeps) : Except StoreErr Unit :=
  .ok ()

/-- First read or write through the HDF5 backend (store.py lines
400-420): pd.HDFStore is opened. Modelled from the spec: pandas is
outside src/; opening an HDFStore requires the HDF5 runtime and raises
an import-time error when it is unavailable, which surfaces here, at
first use, not at construction. -/
def hdf5FirstUse (d : RuntimeDeps) : Except StoreErr Unit :=
  if d.hdf5Runtime then .ok ()
  else .error (.missingDependency "tables" "HDFStore")

/-! ## Upload compression constants -/

/-- ZLIB_LEVEL (store.py line 38); the source comment on this constant
reads: Maximum level. -/
def ZLIB_LEVEL : Nat := 2

/-- zlib.DEFLATED, the only compression method zlib supports. -/
def zlibDeflated : Nat := 8

/-- zlib.MAX_WBITS. -/
def zlibMaxWbits : Nat := 15

/-- ZLIB_METHOD (store.py line 39). -/
def ZLIB_METHOD : Nat := zlibDeflated

/-- ZLIB_WBITS (store.py line 40): zlib.MAX_WBITS | 16, the window-bits
value that adds a gzip header and checksum around the DEFLATE stream. -/
def ZLIB_WBITS : Nat := Nat.lor zlibMaxWbits 16

/-- The maximum zlib compression level, Z_BEST_COMPRESSION. -/
def zlibBestCompression : Nat := 9

/-- Arguments of the zlib.compressobj call in UploadFile (store.py line
285): zlib.compressobj(ZLIB_LEVEL, ZLIB_METHOD, ZLIB_WBITS). -/
structure CompressParams where
  level : Nat
  compMethod : Nat
  wbits : Nat
deriving Repr, DecidableEq

/-- The compressor parameters used by PackageStore.UploadFile for push
staging. -/
def uploadCompressParams : CompressParams :=
  { level := ZLIB_LEVEL, compMethod := ZLIB_METHOD, wbits := ZLIB_WBITS }

/-! ## Concrete demonstration runs

Closed runs of the embedded operations at small concrete inputs, used
by counterexamples and witnesses below. demoDigest stands in for the
digest engine: any deterministic function of the bytes. -/

/-- A concrete stand-in digest function for demonstration runs. -/
def demoDigest (b : List Nat) : String := "h" ++ toString b.length

/-- First HDF5 save_df of the bytes [7] under name x into an empty
store. -/
def dfDemo1 : Except PyExc (Option Node × Fs × List FsOp) :=
  hdf5_save_df demoDigest "u" "p" none fsEmpty [7] "x" "" "s" "pandas" "r"

/-- Manifest persisted by the first demonstration save_df. -/
def dfDemo1manifest : Option Node :=
  match dfDemo1 with
  | .ok (m, _, _) => m
  | .error _ => none

/-- File system left by the first demonstration save_df. -/
def dfDemo1fs : Fs :=
  match dfDemo1 with
  | .ok (_, f, _) => f
  | .error _ => fsEmpty

/-- Second, identical save_df, started from the state the first one
left. -/
def dfDemo2 : Except PyExc (Option Node × Fs × List FsOp) :=
  hdf5_save_df demoDigest "u" "p" dfDemo1manifest dfDemo1fs [7] "x" "" "s" "pandas" "r"

/-- Trace of object-file operations performed by the second
demonstration save_df. -/
def dfDemo2trace : List FsOp :=
  match dfDemo2 with
  | .ok (_, _, t) => t
  | .error _ => []

/-- First save_file of the bytes [7] under name y into an empty
store. -/
def sfDemo1 : Except PyExc (Option Node × Fs × List FsOp) :=
  save_file demoDigest "u" "p" none fsEmpty "src" [7] "y" "s" "file" "r"

/-- Manifest persisted by the first demonstration save_file. -/
def sfDemo1manifest : Option Node :=
  match sfDemo1 with
  | .ok (m, _, _) => m
  | .error _ => none

/-- File system left by the first demonstration save_file. -/
def sfDemo1fs : Fs :=
  match sfDemo1 with
  | .ok (_, f, _) => f
  | .error _ => fsEmpty

/-- Trace of the first demonstration save_file. -/
def sfDemo1trace : List FsOp :=
  match sfDemo1 with
  | .ok (_, _, t) => t
  | .error _ => []

/-! # Theorems -/

/-! ### C3: the directory resolver yields every ancestor marker -/

/-- C3. find_package_dirs yields precisely the marker subdirectories of
every ancestor of the start (the start included, the filesystem root
included), nearest first, skipping an ancestor whose own last component
is the marker name; the walk examines all ancestors down to the root
(where parent equals current), so with marker directories at two or
more ancestor levels all of them are yielded, not just the first. -/
theorem find_package_dirs_characterization (isDir : List String → Bool) (path : List String) :
    find_package_dirs isDir path =
      ((ancestors path).filter
        (fun q => dirName q != PACKAGE_DIR_NAME && isDir (markerChild q))).map markerChild := by
  induction path with
  | nil =>
    simp only [find_package_dirs, ancestors, List.tails]
    split <;> simp_all
  | cons name parent ih =>
    have hd : dirName (name :: parent) = name := rfl
    simp only [find_package_dirs, ancestors] at *
    rw [List.tails_cons, List.filter_cons, hd, ih]
    cases hc : (name != PACKAGE_DIR_NAME && isDir (markerChild (name :: parent))) with
    | false => simp [hc]
    | true => simp [hc]

/-! ### C2: name validation scope -/

/-- Shape of the exceptions _add_to_contents can raise: an
AttributeError from the setdefault walk or the leaf assignment, or the
unrecognized-target StoreException; in particular never an InvalidName
error, whatever the node names are. -/
theorem add_to_contents_error_shape (c : Node) (f h e p t : String) (ex : PyExc)
    (hx : add_to_contents c f h e p t = .error ex) :
    ex = .attributeError ∨ ex = .store (.unrecognizedTarget t) := by
  unfold add_to_contents at hx
  dsimp only at hx
  split at hx
  · injection hx with h2
    exact Or.inl h2.symm
  · split at hx
    · injection hx with h2
      exact Or.inr h2.symm
    · split at hx
      · exact absurd hx (by simp)
      · injection hx with h2
        exact Or.inl h2.symm

/-- C2 counterexample. The node name 1bad fails the claimed pattern,
yet adding it to the contents tree raises no error at all: node names
are not validated. Moreover the regex match itself is wider than the
worded pattern: a name with one trailing newline is accepted by
re.match although the newline is not a letter, digit or underscore. -/
theorem name_validation_counterexample :
    (storeAddNode (some (.group .nil)) "1bad" "h" "" "p" "file").2 = none ∧
    specValidName "1bad" = false ∧
    validNameMatch "ab\n" = true ∧
    specValidName "ab\n" = false :=
  ⟨rfl, rfl, rfl, rfl⟩

/-- C2 amended. The InvalidName StoreException is raised during store
path resolution for the user name and the package name, and exactly
when the name fails re.match on VALID_NAME_RE (whose dollar anchor also
accepts one trailing newline); tree node names added to the contents
tree by _add_to_contents are never validated: a failing
_add_to_contents raises only AttributeError or the unrecognized-target
StoreException. -/
theorem name_validation_amended :
    (∀ user pkg : String,
      find_path_name_check user pkg = none ↔
        (validNameMatch user = true ∧ validNameMatch pkg = true)) ∧
    (∀ user pkg : String, validNameMatch user = false →
      find_path_name_check user pkg = some (.invalidUserName user)) ∧
    (∀ user pkg : String, validNameMatch user = true → validNameMatch pkg = false →
      find_path_name_check user pkg = some (.invalidPackageName pkg)) ∧
    (∀ (disk : Option Node) (fullname objhash ext path target : String) (e : PyExc),
      (storeAddNode disk fullname objhash ext path target).2 = some e →
      e = .attributeError ∨ e = .store (.unrecognizedTarget target)) := by
  refine ⟨?_, ?_, ?_, ?_⟩
  · intro user pkg
    unfold find_path_name_check
    cases hu : validNameMatch user <;> cases hp : validNameMatch pkg <;> simp
  · intro user pkg hu
    simp [find_path_name_check, hu]
  · intro user pkg hu hp
    simp [find_path_name_check, hu, hp]
  · intro disk fullname objhash ext path target e hx
    unfold storeAddNode at hx
    dsimp only at hx
    split at hx
    · simp at hx
    · rename_i e2 heq
      simp at hx
      subst hx
      exact add_to_contents_error_shape _ _ _ _ _ _ _ heq

/-- C2 amended, witness at concrete inputs: an invalid user name is
rejected at path resolution, and a failing _add_to_contents raises one
of the two non-InvalidName exceptions. -/
theorem name_validation_amended_witness :
    find_path_name_check "9x" "ok" = some (.invalidUserName "9x") ∧
    (PyExc.store (.unrecognizedTarget "bogus") = .attributeError ∨
      PyExc.store (.unrecognizedTarget "bogus") = .store (.unrecognizedTarget "bogus")) :=
  ⟨name_validation_amended.2.1 "9x" "ok" rfl,
   name_validation_amended.2.2.2 (some (.group .nil)) "x" "h" "" "p" "bogus"
     (.store (.unrecognizedTarget "bogus")) rfl⟩

/-! ### C5: get_contents on a store without a manifest -/

/-- C5 counterexample. On a handle whose resolver found no manifest the
_path attribute is None, and get_contents raises TypeError from
open(None) instead of returning an empty Group: the except IOError
clause does not catch it. -/
theorem get_contents_none_counterexample :
    get_contents none (fun _ => none) = .error .typeError :=
  rfl

/-- C5 amended. When the handle has a manifest path but the file does
not exist yet (the new-package case after a write path is allocated),
get_contents catches the IOError and returns an empty Group; when the
resolver found no manifest at all, _path is None and get_contents
raises an uncaught TypeError from open(None). -/
theorem get_contents_amended :
    (∀ (fsManifest : String → Option Node) (p : String), fsManifest p = none →
      get_contents (some p) fsManifest = .ok (.group .nil)) ∧
    (∀ fsManifest : String → Option Node,
      get_contents none fsManifest = .error .typeError) := by
  constructor
  · intro fs p hp
    simp [get_contents, hp]
  · intro fs
    rfl

/-- C5 amended, witness: a concrete absent manifest file yields the
empty Group, a concrete None path yields the TypeError. -/
theorem get_contents_amended_witness :
    get_contents (some "quilt_packages/u/p.json") (fun _ => none) = .ok (.group .nil) ∧
    get_contents none (fun _ => none) = .error .typeError :=
  ⟨get_contents_amended.1 (fun _ => none) "quilt_packages/u/p.json" rfl,
   get_contents_amended.2 (fun _ => none)⟩

/-! ### C10: get of an empty or all-slash path returns the root -/

/-- C10. On a store with a located manifest, get of the empty path or
of a path consisting only of slashes strips the leading slashes, gets
an empty key, hence an empty segment list, and returns the entire root
Group without error. -/
theorem get_root_on_slash_path (user pkg : String) (ch : Children) (path : String)
    (h : ∀ c ∈ path.data, c = '/') :
    get true user pkg (.group ch) path = .ok (.group (.group ch)) := by
  have hdrop : path.data.dropWhile (fun c => c == '/') = [] := by
    rw [List.dropWhile_eq_nil_iff]
    intro x hx
    simp [h x hx]
  have hkey : splitKey path = [] := by
    simp [splitKey, lstripSlash, hdrop]
  simp [get, hkey, walkGet]

/-- C10 witness: the empty path and a pure-slash path on a concrete
store both return the root Group. -/
theorem get_root_on_slash_path_witness :
    get true "u" "p" (.group (.cons "a" (.file ["h"] "" "" "file") .nil)) "///" =
      .ok (.group (.group (.cons "a" (.file ["h"] "" "" "file") .nil))) :=
  get_root_on_slash_path "u" "p" (.cons "a" (.file ["h"] "" "" "file") .nil) "///"
    (by decide)

/-! ### C9: error on a missing path segment -/

/-- C9 counterexample. A tree can contain the path a/b as a File leaf;
resolving a/b/missing then reads .children off the File node and raises
AttributeError, not the path-not-found StoreException. -/
theorem resolve_missing_counterexample :
    get true "u" "p"
        (.group (.cons "a" (.group (.cons "b" (.file ["h"] "" "" "file") .nil)) .nil))
        "a/b/missing" = .error .attributeError :=
  rfl

/-- C9 amended. On every tree containing a Group at path a/b without a
child named missing, get of a/b/missing fails with the StoreException
whose reported path is the matched-so-far path a/b extended with the
missing segment missing (the code joins path_so_far, which already
includes the missing segment), together with the owner and package
names; when a/b is instead a Table or File leaf, the lookup raises
AttributeError. -/
theorem resolve_missing_amended (user pkg : String) (ch chA gb : Children)
    (hA : ch.lookup "a" = some (.group chA))
    (hB : chA.lookup "b" = some (.group gb))
    (hM : gb.lookup "missing" = none) :
    get true user pkg (.group ch) "a/b/missing" =
      .error (.store (.keyNotFound ["a", "b", "missing"] user pkg)) := by
  have hsplit : splitKey "a/b/missing" = ["a", "b", "missing"] := rfl
  simp [get, hsplit, walkGet, hA, hB, hM]

/-- C9 amended, witness at a concrete tree with an empty Group at
a/b. -/
theorem resolve_missing_amended_witness :
    get true "u" "p" (.group (.cons "a" (.group (.cons "b" (.group .nil) .nil)) .nil))
        "a/b/missing" =
      .error (.store (.keyNotFound ["a", "b", "missing"] "u" "p")) :=
  resolve_missing_amended "u" "p" (.cons "a" (.group (.cons "b" (.group .nil) .nil)) .nil)
    (.cons "b" (.group .nil) .nil) .nil rfl rfl rfl

/-! ### C8: unrecognized target kind -/

/-- C8 counterexample. When the dotted name crosses an existing Table
leaf before its last segment, the setdefault loop raises AttributeError
before the target kind is ever inspected, so a call with an
unrecognized target kind does not fail with the unrecognized-target
error there (the manifest is still left unchanged). -/
theorem add_node_bad_target_counterexample :
    (storeAddNode (some (.group (.cons "a" (.table ["h"] "" "" "pandas") .nil)))
        "a.b.c" "h2" "" "p" "bogus").2 = some .attributeError ∧
    PyExc.attributeError ≠ .store (.unrecognizedTarget "bogus") :=
  ⟨rfl, by decide⟩

/-- C8 amended. On a call whose setdefault walk completes (the dotted
path meets only Groups or absent names before its last segment), an
unrecognized target kind fails with the descriptive unrecognized-target
StoreException and the persisted manifest is returned unchanged; and
every failing _add_to_contents call, whatever its exception, leaves the
persisted manifest unchanged, because save_contents is never reached. -/
theorem add_node_bad_target_amended :
    (∀ (disk : Option Node) (fullname objhash ext path target : String),
      targetTypeOfString target = none →
      loopOk (disk.getD (.group .nil)) (pySplit fullname '.').dropLast = true →
      storeAddNode disk fullname objhash ext path target =
        (disk, some (.store (.unrecognizedTarget target)))) ∧
    (∀ (disk : Option Node) (fullname objhash ext path target : String) (e : PyExc),
      (storeAddNode disk fullname objhash ext path target).2 = some e →
      (storeAddNode disk fullname objhash ext path target).1 = disk) := by
  constructor
  · intro disk fullname objhash ext path target ht hl
    unfold storeAddNode add_to_contents
    simp [ht, hl]
  · intro disk fullname objhash ext path target e hx
    unfold storeAddNode at *
    dsimp only at *
    split at hx
    · simp at hx
    · simp

/-- C8 amended, witness: a concrete bad-target call on an empty
manifest raises the unrecognized-target error and leaves the manifest
as it was. -/
theorem add_node_bad_target_amended_witness :
    storeAddNode (some (.group .nil)) "a.b" "h" "" "p" "bogus" =
      (some (.group .nil), some (.store (.unrecognizedTarget "bogus"))) ∧
    (storeAddNode (some (.group .nil)) "a.b.c" "h" "" "p" "bogus").1 =
      some (.group .nil) :=
  ⟨add_node_bad_target_amended.1 (some (.group .nil)) "a.b" "h" "" "p" "bogus" rfl rfl,
   add_node_bad_target_amended.2 (some (.group .nil)) "a.b.c" "h" "" "p" "bogus"
     (.store (.unrecognizedTarget "bogus")) rfl⟩

/-! ### C6: backend dependency checks -/

/-- C6 counterexample. With every modeled runtime dependency
unavailable, constructing the HDF5 store still succeeds: its
constructor performs no dependency check, and the missing HDF5 runtime
surfaces only at the first read or write through pd.HDFStore. -/
theorem hdf5_init_counterexample :
    hdf5StoreInit ⟨false, false, false, false⟩ = .ok () ∧
    hdf5FirstUse ⟨false, false, false, false⟩ =
      .error (.missingDependency "tables" "HDFStore") :=
  ⟨rfl, rfl⟩

/-- C6 amended. The FastParquet and Arrow store constructors fail with
a missing-dependency StoreException exactly when their module is
unavailable, and the Spark constructor exactly when fastparquet (its
superclass requirement) or SparkSession is unavailable; the HDF5 store
constructor never checks a dependency, succeeding for every
availability state, and the missing HDF5 runtime fails only at first
use. -/
theorem backend_dependency_check_amended :
    (∀ d : RuntimeDeps, fastParquetStoreInit d = .ok () ↔ d.fastparquet = true) ∧
    (∀ d : RuntimeDeps, arrowStoreInit d = .ok () ↔ d.pyarrow = true) ∧
    (∀ d : RuntimeDeps,
      sparkStoreInit d = .ok () ↔ (d.fastparquet = true ∧ d.sparkSession = true)) ∧
    (∀ d : RuntimeDeps, hdf5StoreInit d = .ok ()) ∧
    (∀ d : RuntimeDeps, hdf5FirstUse d = .ok () ↔ d.hdf5Runtime = true) := by
  refine ⟨?_, ?_, ?_, ?_, ?_⟩ <;> intro d <;> cases d with
  | mk fp pa ss h5 =>
    first
    | rfl
    | cases fp <;> cases ss <;>
        simp [fastParquetStoreInit, arrowStoreInit, sparkStoreInit, hdf5FirstUse]

/-- C6 amended, witness at concrete availability states. -/
theorem backend_dependency_check_amended_witness :
    fastParquetStoreInit ⟨true, false, false, false⟩ = .ok () ∧
    hdf5StoreInit ⟨false, false, false, false⟩ = .ok () :=
  ⟨(backend_dependency_check_amended.1 ⟨true, false, false, false⟩).2 rfl,
   backend_dependency_check_amended.2.2.2.1 ⟨false, false, false, false⟩⟩

/-! ### C7: upload compression level -/

/-- C7. The push staging compressor is built with
zlib.compressobj(ZLIB_LEVEL, ZLIB_METHOD, ZLIB_WBITS): the DEFLATE
method inside a gzip frame (window bits MAX_WBITS plus the gzip flag
16), written to a temporary buffer — but at compression level 2, not
the maximum zlib level 9, although the source comment on ZLIB_LEVEL
claims it is the maximum level. -/
theorem zlib_level_disagreement :
    uploadCompressParams.level = 2 ∧
    zlibBestCompression = 9 ∧
    uploadCompressParams.level ≠ zlibBestCompression ∧
    uploadCompressParams.compMethod = zlibDeflated ∧
    uploadCompressParams.wbits = Nat.lor zlibMaxWbits 16 ∧
    uploadCompressParams.wbits = 31 := by
  refine ⟨rfl, rfl, by decide, rfl, rfl, by decide⟩

/-! ### C4: install deletes a mismatched object and aborts -/

/-- Per-node helper: whenever install_table ends in the mismatched-hash
StoreException, the recomputed digest really differs from the expected
one and the file written at the expected digest's object path has been
removed from the final file system. -/
theorem install_table_mismatch (dg : List Nat → String) (urls : String → Option String)
    (fetch : String → FetchResult) (pkgDir : String) (exp act : String) :
    ∀ (hashes : List String) (fs : Fs),
      (install_table dg urls fetch pkgDir hashes fs).2 =
        some (.store (.mismatchedHash exp act)) →
      act ≠ exp ∧
        (install_table dg urls fetch pkgDir hashes fs).1 (objPath pkgDir exp) = none := by
  intro hashes
  induction hashes with
  | nil =>
    intro fs hx
    simp [install_table] at hx
  | cons h rest ih =>
    intro fs hx
    unfold install_table at hx ⊢
    cases hu : urls h with
    | none =>
      rw [hu] at hx
      simp at hx
    | some url =>
      rw [hu] at hx
      dsimp only at hx ⊢
      cases hf : fetch url with
      | httpError code =>
        rw [hf] at hx
        simp at hx
      | body content =>
        rw [hf] at hx
        dsimp only at hx ⊢
        by_cases hd : dg content = h
        · rw [if_neg (by simp [hd])] at hx ⊢
          exact ih _ hx
        · rw [if_pos (by simp [bne_iff_ne]; exact hd)] at hx ⊢
          simp only [Option.some.injEq, PyExc.store.injEq, StoreErr.mismatchedHash.injEq] at hx
          obtain ⟨he, ha⟩ := hx
          subst he
          subst ha
          refine ⟨fun hc => hd hc, ?_⟩
          simp [fsRemove]

mutual

/-- Tree-level helper, Node side: a mismatched-hash failure of
install_tables leaves no file at the mismatched object path. -/
theorem install_tables_mismatch (dg : List Nat → String) (urls : String → Option String)
    (fetch : String → FetchResult) (pkgDir : String) (n : Node) (fs : Fs) (exp act : String)
    (hx : (install_tables dg urls fetch pkgDir n fs).2 =
      some (.store (.mismatchedHash exp act))) :
    act ≠ exp ∧
      (install_tables dg urls fetch pkgDir n fs).1 (objPath pkgDir exp) = none := by
  cases n with
  | group ch =>
    unfold install_tables at hx ⊢
    exact installChildren_mismatch dg urls fetch pkgDir ch fs exp act hx
  | table hs a b c =>
    unfold install_tables at hx
    simp at hx
  | file hs a b c =>
    unfold install_tables at hx
    simp at hx

/-- Tree-level helper, children side. -/
theorem installChildren_mismatch (dg : List Nat → String) (urls : String → Option String)
    (fetch : String → FetchResult) (pkgDir : String) (ch : Children) (fs : Fs) (exp act : String)
    (hx : (installChildren dg urls fetch pkgDir ch fs).2 =
      some (.store (.mismatchedHash exp act))) :
    act ≠ exp ∧
      (installChildren dg urls fetch pkgDir ch fs).1 (objPath pkgDir exp) = none := by
  cases ch with
  | nil =>
    unfold installChildren at hx
    simp at hx
  | cons name child rest =>
    unfold installChildren at hx ⊢
    cases child with
    | group ch2 =>
      dsimp only at hx ⊢
      cases hr : installChildren dg urls fetch pkgDir ch2 fs with
      | mk fs1 oe =>
        rw [hr] at hx
        cases oe with
        | none =>
          dsimp only at hx ⊢
          exact installChildren_mismatch dg urls fetch pkgDir rest fs1 exp act hx
        | some e =>
          dsimp only at hx ⊢
          have he : e = .store (.mismatchedHash exp act) := by simpa using hx
          subst he
          have hrec := installChildren_mismatch dg urls fetch pkgDir ch2 fs exp act
            (by rw [hr])
          rw [hr] at hrec
          exact hrec
    | table hs a b c =>
      dsimp only at hx ⊢
      cases hr : install_table dg urls fetch pkgDir (nodeHashes (.table hs a b c)) fs with
      | mk fs1 oe =>
        rw [hr] at hx
        cases oe with
        | none =>
          dsimp only at hx ⊢
          exact installChildren_mismatch dg urls fetch pkgDir rest fs1 exp act hx
        | some e =>
          dsimp only at hx ⊢
          have he : e = .store (.mismatchedHash exp act) := by simpa using hx
          subst he
          have hrec := install_table_mismatch dg urls fetch pkgDir exp act
            (nodeHashes (.table hs a b c)) fs (by rw [hr])
          rw [hr] at hrec
          exact hrec
    | file hs a b c =>
      dsimp only at hx ⊢
      cases hr : install_table dg urls fetch pkgDir (nodeHashes (.file hs a b c)) fs with
      | mk fs1 oe =>
        rw [hr] at hx
        cases oe with
        | none =>
          dsimp only at hx ⊢
          exact installChildren_mismatch dg urls fetch pkgDir rest fs1 exp act hx
        | some e =>
          dsimp only at hx ⊢
          have he : e = .store (.mismatchedHash exp act) := by simpa using hx
          subst he
          have hrec := install_table_mismatch dg urls fetch pkgDir exp act
            (nodeHashes (.file hs a b c)) fs (by rw [hr])
          rw [hr] at hrec
          exact hrec

end

/-- C4. When an install ends in the mismatched-hash StoreException, the
recomputed digest of the fetched content differs from the expected
digest and no file remains at the expected digest's object path in the
final file system; moreover the mismatch aborts immediately: on the
first hash whose fetched content digests wrong, install_table deletes
the just-written partial file and returns the integrity error without
touching the remaining hashes. -/
theorem install_integrity_mismatch :
    (∀ (dg : List Nat → String) (urls : String → Option String) (fetch : String → FetchResult)
        (pkgDir : String) (contents : Node) (fs : Fs) (exp act : String),
      (install_tables dg urls fetch pkgDir contents fs).2 =
        some (.store (.mismatchedHash exp act)) →
      act ≠ exp ∧
        (install_tables dg urls fetch pkgDir contents fs).1 (objPath pkgDir exp) = none) ∧
    (∀ (dg : List Nat → String) (urls : String → Option String) (fetch : String → FetchResult)
        (pkgDir h : String) (rest : List String) (fs : Fs) (url : String) (content : List Nat),
      urls h = some url → fetch url = .body content → dg content ≠ h →
      install_table dg urls fetch pkgDir (h :: rest) fs =
        (fsRemove (fsWrite fs (objPath pkgDir h) content) (objPath pkgDir h),
         some (.store (.mismatchedHash h (dg content))))) := by
  constructor
  · intro dg urls fetch pkgDir contents fs exp act hx
    exact install_tables_mismatch dg urls fetch pkgDir contents fs exp act hx
  · intro dg urls fetch pkgDir h rest fs url content hu hf hd
    unfold install_table
    rw [hu]
    dsimp only
    rw [hf]
    dsimp only
    rw [if_pos (by simp [bne_iff_ne]; exact hd)]

/-- C4 witness: a concrete one-table install whose fetched bytes digest
to 3 instead of the expected h2 aborts with the integrity error, and
the object path of h2 holds no file afterwards. -/
theorem install_integrity_mismatch_witness :
    (("3" : String) ≠ "h2" ∧
      (install_tables (fun b => toString b.length) (fun _ => some "url")
          (fun _ => .body [1, 2, 3]) "r"
          (.group (.cons "t" (.table ["h2"] "" "" "pandas") .nil)) fsEmpty).1
        (objPath "r" "h2") = none) ∧
    install_table (fun b => toString b.length) (fun _ => some "url")
        (fun _ => .body [1, 2, 3]) "r" ["h2"] fsEmpty =
      (fsRemove (fsWrite fsEmpty (objPath "r" "h2") [1, 2, 3]) (objPath "r" "h2"),
       some (.store (.mismatchedHash "h2" "3"))) :=
  ⟨install_integrity_mismatch.1 (fun b => toString b.length) (fun _ => some "url")
      (fun _ => .body [1, 2, 3]) "r"
      (.group (.cons "t" (.table ["h2"] "" "" "pandas") .nil)) fsEmpty "h2" "3" rfl,
   install_integrity_mismatch.2 (fun b => toString b.length) (fun _ => some "url")
      (fun _ => .body [1, 2, 3]) "r" "h2" [] fsEmpty "url" [1, 2, 3] rfl rfl (by decide)⟩

/-! ### C1: idempotence of publishing identical content -/

/-- Inversion of a successful _add_to_contents: the target kind is
recognized, the setdefault walk completes on a Group, and the result is
the insertAt rebuild. -/
theorem add_to_contents_ok_inv (c : Node) (f h e p t : String) (m : Node)
    (hx : add_to_contents c f h e p t = .ok m) :
    ∃ tt, targetTypeOfString t = some tt ∧
      loopOk c (pySplit f '.').dropLast = true ∧
      (∃ ch, finalPtr c (pySplit f '.').dropLast = .group ch) ∧
      m = insertAt c (pySplit f '.').dropLast ((pySplit f '.').getLastD "")
        (makeLeaf tt h e p t) := by
  unfold add_to_contents at hx
  dsimp only at hx
  split at hx
  · simp at hx
  · rename_i hl
    split at hx
    · simp at hx
    · rename_i tt htt
      split at hx
      · rename_i ch hfp
        injection hx with hm
        refine ⟨tt, htt, ?_, ⟨ch, hfp⟩, hm.symm⟩
        cases hLoop : loopOk c (pySplit f '.').dropLast with
        | false => rw [hLoop] at hl; simp at hl
        | true => rfl
      · simp at hx

/-- Looking a key up right after setting it yields the new value
(Python dict item assignment then get). -/
theorem Children.lookup_set : ∀ (ch : Children) (k : String) (v : Node),
    (ch.set k v).lookup k = some v
  | .nil, k, v => by simp [Children.set, Children.lookup]
  | .cons n c rest, k, v => by
    by_cases hk : (n == k) = true
    · simp [Children.set, hk, Children.lookup]
    · simp [Children.set, hk, Children.lookup, Children.lookup_set rest k v]

/-- After an insertAt along a walkable group path, the same path is
still walkable and still ends on a Group: the rebuild only replaces
children along the path with Groups (or, at the very end, assigns the
leaf inside the final Group). -/
theorem insertAt_walk (gpath : List String) :
    ∀ (c : Node) (leaf : String) (v : Node),
      loopOk c gpath = true → (∃ ch, finalPtr c gpath = .group ch) →
      loopOk (insertAt c gpath leaf v) gpath = true ∧
        (∃ ch2, finalPtr (insertAt c gpath leaf v) gpath = .group ch2) := by
  induction gpath with
  | nil =>
    intro c leaf v hl hfp
    obtain ⟨ch, hfp⟩ := hfp
    have hc : c = .group ch := by simpa [finalPtr] using hfp
    subst hc
    refine ⟨by simp [insertAt, loopOk], ⟨ch.set leaf v, by simp [insertAt, finalPtr]⟩⟩
  | cons n rest ih =>
    intro c leaf v hl hfp
    cases c with
    | table hs a b c2 => simp [loopOk] at hl
    | file hs a b c2 => simp [loopOk] at hl
    | group ch =>
      have hl2 : loopOk ((ch.lookup n).getD (.group .nil)) rest = true := by
        simpa [loopOk] using hl
      have hfp2 : ∃ ch2, finalPtr ((ch.lookup n).getD (.group .nil)) rest = .group ch2 := by
        simpa [finalPtr] using hfp
      obtain ⟨hL2, hF2⟩ := ih _ leaf v hl2 hfp2
      constructor
      · simp [insertAt, loopOk, Children.lookup_set, hL2]
      · simpa [insertAt, finalPtr, Children.lookup_set] using hF2

/-- A second _add_to_contents with the same dotted name and target
kind, started from the tree a first successful call produced, succeeds
again: the walk now meets exactly the groups the first call created. -/
theorem add_to_contents_again_ok (c : Node) (f h e p t h2 e2 p2 : String) (m : Node)
    (hx : add_to_contents c f h e p t = .ok m) :
    ∃ m2, add_to_contents m f h2 e2 p2 t = .ok m2 := by
  obtain ⟨tt, htt, hl, hfp, hm⟩ := add_to_contents_ok_inv c f h e p t m hx
  obtain ⟨hL2, ch2, hF2⟩ :
      loopOk m (pySplit f '.').dropLast = true ∧
        ∃ ch2, finalPtr m (pySplit f '.').dropLast = .group ch2 := by
    rw [hm]
    obtain ⟨a, b⟩ := insertAt_walk (pySplit f '.').dropLast c
      ((pySplit f '.').getLastD "") (makeLeaf tt h e p t) hl hfp
    exact ⟨a, b⟩
  refine ⟨insertAt m (pySplit f '.').dropLast ((pySplit f '.').getLastD "")
    (makeLeaf tt h2 e2 p2 t), ?_⟩
  unfold add_to_contents
  dsimp only
  rw [hL2, htt, hF2]
  simp

/-- save_file part of the amended C1: from any state a successful
save_file leaves, a second save_file of the same bytes under the same
name computes the same digest, finds the object already present at the
digest-named path, performs no object-file operation at all, and
returns the file system unchanged. -/
theorem save_file_publish (dg : List Nat → String) (u p : String) (m0 : Option Node)
    (fs : Fs) (sfile : String) (b : List Nat) (name path pkgDir : String)
    (m1 : Option Node) (fs1 : Fs) (t1 : List FsOp)
    (h1 : save_file dg u p m0 fs sfile b name path "file" pkgDir = .ok (m1, fs1, t1)) :
    (fs1 (objPath pkgDir (dg b))).isSome = true ∧
    ∃ m2, save_file dg u p m1 fs1 sfile b name path "file" pkgDir =
      .ok (m2, fs1, []) := by
  unfold save_file at h1
  cases hn : find_path_name_check u p with
  | some e =>
    rw [hn] at h1
    simp at h1
  | none =>
    rw [hn] at h1
    dsimp only at h1
    cases ha : add_to_contents (m0.getD (.group .nil))
        (pyReplaceChar (lstripSlash name) '/' '.') (dg b) "" path "file" with
    | error e =>
      rw [ha] at h1
      simp at h1
    | ok mA =>
      rw [ha] at h1
      dsimp only at h1
      obtain ⟨mB, hB⟩ := add_to_contents_again_ok _ _ _ _ _ _ (dg b) "" path _ ha
      cases ho : fs (objPath pkgDir (dg b)) with
      | some c =>
        rw [ho] at h1
        simp only [Except.ok.injEq, Prod.mk.injEq] at h1
        obtain ⟨hM, hF, hT⟩ := h1
        subst hM
        subst hF
        subst hT
        refine ⟨by simp [ho], ⟨some mB, ?_⟩⟩
        unfold save_file
        rw [hn]
        dsimp only
        rw [show (some mA).getD (Node.group Children.nil) = mA from rfl, hB]
        dsimp only
        rw [ho]
      | none =>
        rw [ho] at h1
        simp only [Except.ok.injEq, Prod.mk.injEq] at h1
        obtain ⟨hM, hF, hT⟩ := h1
        subst hM
        subst hF
        subst hT
        have hobj : fsWrite fs (objPath pkgDir (dg b)) b (objPath pkgDir (dg b)) = some b := by
          simp [fsWrite]
        refine ⟨by simp [hobj], ⟨some mB, ?_⟩⟩
        unfold save_file
        rw [hn]
        dsimp only
        rw [show (some mA).getD (Node.group Children.nil) = mA from rfl, hB]
        dsimp only
        rw [hobj]

/-- save_df part of the amended C1: from any state a successful
save_df leaves, a second save_df of identical bytes under the same name
computes the same digest, finds the object already present, and still
performs the rename of the staged file onto the digest-named object
path (os.rename is unconditional); the final state keeps exactly that
one object with the identical bytes. -/
theorem save_df_publish (dg : List Nat → String) (u p : String) (m0 : Option Node)
    (fs : Fs) (b : List Nat) (name ext path pkgDir : String)
    (m1 : Option Node) (fs1 : Fs) (t1 : List FsOp)
    (h1 : hdf5_save_df dg u p m0 fs b name ext path "pandas" pkgDir = .ok (m1, fs1, t1)) :
    (fs1 (objPath pkgDir (dg b))).isSome = true ∧
    ∃ m2 fs2, hdf5_save_df dg u p m1 fs1 b name ext path "pandas" pkgDir =
      .ok (m2, fs2,
        [.renameOp (tmpObjPath pkgDir (pyReplaceChar (lstripSlash name) '/' '.'))
          (objPath pkgDir (dg b))]) ∧
      fs2 (objPath pkgDir (dg b)) = some b := by
  unfold hdf5_save_df at h1
  cases hn : find_path_name_check u p with
  | some e =>
    rw [hn] at h1
    simp at h1
  | none =>
    rw [hn] at h1
    dsimp only at h1
    cases ha : add_to_contents (m0.getD (.group .nil))
        (pyReplaceChar (lstripSlash name) '/' '.') (dg b) ext path "pandas" with
    | error e =>
      rw [ha] at h1
      simp at h1
    | ok mA =>
      rw [ha] at h1
      dsimp only at h1
      simp only [Except.ok.injEq, Prod.mk.injEq] at h1
      obtain ⟨hM, hF, hT⟩ := h1
      subst hM
      subst hT
      obtain ⟨mB, hB⟩ := add_to_contents_again_ok _ _ _ _ _ _ (dg b) ext path _ ha
      have hobj : ∀ fsx : Fs, fsWrite fsx (objPath pkgDir (dg b)) b (objPath pkgDir (dg b)) =
          some b := by
        intro fsx
        simp [fsWrite]
      constructor
      · rw [← hF]
        simp [hobj]
      · refine ⟨some mB,
          fsWrite
            (fsRemove (fsWrite fs1 (tmpObjPath pkgDir (pyReplaceChar (lstripSlash name) '/' '.')) b)
              (tmpObjPath pkgDir (pyReplaceChar (lstripSlash name) '/' '.')))
            (objPath pkgDir (dg b)) b, ?_, hobj _⟩
        unfold hdf5_save_df
        rw [hn]
        dsimp only
        rw [show (some mA).getD (Node.group Children.nil) = mA from rfl, hB]

/-- C1 counterexample. After a first save_df of the bytes [7], the
object file already exists at its digest-named path, yet the second,
identical save_df still moves (renames) the staged file onto that path:
the staged copy is not moved only-if-absent for the save_df variants. -/
theorem publish_dedup_counterexample :
    dfDemo1fs (objPath "r" (demoDigest [7])) = some [7] ∧
    dfDemo2trace = [.renameOp (tmpObjPath "r" "x") (objPath "r" (demoDigest [7]))] :=
  ⟨rfl, rfl⟩

/-- C1 amended. Saving identical bytes twice computes the same digest
both times and leaves exactly one object file, with those bytes, at the
digest-named path. save_file copies the source to the object path only
if no object exists there, so the second save performs no object-file
operation; the save_df variants instead rename the staged file onto the
object path unconditionally, overwriting the existing identical object,
which leaves the file system with the same single object. -/
theorem publish_dedup_amended :
    (∀ (dg : List Nat → String) (u p : String) (m0 : Option Node) (fs : Fs)
        (sfile : String) (b : List Nat) (name path pkgDir : String)
        (m1 : Option Node) (fs1 : Fs) (t1 : List FsOp),
      save_file dg u p m0 fs sfile b name path "file" pkgDir = .ok (m1, fs1, t1) →
      (fs1 (objPath pkgDir (dg b))).isSome = true ∧
        ∃ m2, save_file dg u p m1 fs1 sfile b name path "file" pkgDir =
          .ok (m2, fs1, [])) ∧
    (∀ (dg : List Nat → String) (u p : String) (m0 : Option Node) (fs : Fs)
        (b : List Nat) (name ext path pkgDir : String)
        (m1 : Option Node) (fs1 : Fs) (t1 : List FsOp),
      hdf5_save_df dg u p m0 fs b name ext path "pandas" pkgDir = .ok (m1, fs1, t1) →
      (fs1 (objPath pkgDir (dg b))).isSome = true ∧
        ∃ m2 fs2, hdf5_save_df dg u p m1 fs1 b name ext path "pandas" pkgDir =
          .ok (m2, fs2,
            [.renameOp (tmpObjPath pkgDir (pyReplaceChar (lstripSlash name) '/' '.'))
              (objPath pkgDir (dg b))]) ∧
          fs2 (objPath pkgDir (dg b)) = some b) :=
  ⟨fun dg u p m0 fs sfile b name path pkgDir m1 fs1 t1 h1 =>
    save_file_publish dg u p m0 fs sfile b name path pkgDir m1 fs1 t1 h1,
   fun dg u p m0 fs b name ext path pkgDir m1 fs1 t1 h1 =>
    save_df_publish dg u p m0 fs b name ext path pkgDir m1 fs1 t1 h1⟩

/-- C1 amended, witness on the concrete demonstration runs: the second
identical save_file is a no-op on the file system, and the second
identical save_df still renames onto the existing object. -/
theorem publish_dedup_amended_witness :
    ((sfDemo1fs (objPath "r" (demoDigest [7]))).isSome = true ∧
      ∃ m2, save_file demoDigest "u" "p" sfDemo1manifest sfDemo1fs "src" [7] "y" "s"
        "file" "r" = .ok (m2, sfDemo1fs, [])) ∧
    ((dfDemo1fs (objPath "r" (demoDigest [7]))).isSome = true ∧
      ∃ m2 fs2, hdf5_save_df demoDigest "u" "p" dfDemo1manifest dfDemo1fs [7] "x" "" "s"
        "pandas" "r" =
        .ok (m2, fs2,
          [.renameOp (tmpObjPath "r" (pyReplaceChar (lstripSlash "x") '/' '.'))
            (objPath "r" (demoDigest [7]))]) ∧
        fs2 (objPath "r" (demoDigest [7])) = some [7]) :=
  ⟨publish_dedup_amended.1 demoDigest "u" "p" none fsEmpty "src" [7] "y" "s" "r"
      sfDemo1manifest sfDemo1fs sfDemo1trace rfl,
   publish_dedup_amended.2 demoDigest "u" "p" none fsEmpty [7] "x" "" "s" "r"
      dfDemo1manifest dfDemo1fs
      (match dfDemo1 with
        | .ok (_, _, t) => t
        | .error _ => []) rfl⟩

end Quilt
